import Mathlib

/-!
Verification development for the `bettersql` repository (`src/main.py`).

The Python module is embedded shallowly: the `sqlite3` connection is modelled
as an explicit state (`BSQL`) holding the committed database, the current
(uncommitted) database view, the cursor's last result set, the pending
transaction list, the history list, and counters for `commit`/`rollback`
calls and executed statements.  Driver-level failures that are not forced by
the statement itself (disk errors and the like) are modelled by an `oracle`
list consumed one entry per executed statement; `[]` means the driver never
injects a failure.  Python exceptions escaping a method are modelled with
`Except PyErr`.
-/

set_option maxHeartbeats 1000000

namespace BetterSql

/-- The Python types that are keys of the `sql_types` dictionary
(`None`, `int`, `float`, `str`, `bytes`). -/
inductive PyType where
  | none
  | int
  | float
  | str
  | bytes
deriving DecidableEq, Repr

/-- The `sql_types` dictionary from `src/main.py` lines 5-11.  Note that the
source maps `str` to the keyword `STRING`, not `TEXT`. -/
def sql_types : PyType → String
  | .none => "NULL"
  | .int => "INTEGER"
  | .float => "REAL"
  | .str => "STRING"
  | .bytes => "BLOB"

/-- The keys of `sql_types`, in dictionary order (`list(sql_types)`). -/
def sqlTypeKeys : List PyType := [.none, .int, .float, .str, .bytes]

/-- Reverse lookup used by `Column.__init__`:
`list(sql_types.keys())[list(sql_types.values()).index(kw)]` — the first key
whose value equals the given keyword string, if any. -/
def keywordToType (kw : String) : Option PyType :=
  sqlTypeKeys.find? (fun t => sql_types t == kw)

/-- Python exceptions that can escape the modelled methods. -/
inductive PyErr where
  /-- TypeError, e.g. indexing a list with a str. -/
  | typeError
  /-- AssertionError from the "Not a valid type" assertion. -/
  | assertionError
  /-- KeyError from `record[column]` with a missing key. -/
  | keyError
  /-- IndexError from subscripting a too-short row tuple. -/
  | indexError
deriving DecidableEq, Repr

/-- A constructed `Column` object: `self.name` and `self.type` (the latter is
always one of the `sql_types` keys once `__init__` succeeds). -/
structure Column where
  name : String
  type : PyType
deriving DecidableEq, Repr

/-- The kinds of value the source passes as `Column.__init__`'s
`column_type` argument: a `bool` instance (`True`/`False`), one of the native
type objects that key `sql_types`, the `bool` class object itself, or a
string. -/
inductive TypeArg where
  | boolVal (b : Bool)
  | pyType (t : PyType)
  | boolClass
  | keyword (s : String)
deriving Repr

/-- `Column.__init__` (`src/main.py` lines 15-22).
A `bool` instance is coerced to `int` by `isinstance(column_type, bool)`.
A native type object is not among the string values, and is a key, so it is
kept.  The `bool` class is neither a value string nor a key of `sql_types`
(Python `bool == int` on the class objects is `False`), so the
"Not a valid type" assertion fails.  A string that is one of the mapped
keywords is converted back to the corresponding key; any other string fails
the assertion. -/
def Column.init (name : String) (column_type : TypeArg) : Except PyErr Column :=
  match column_type with
  | .boolVal _ => .ok ⟨name, .int⟩
  | .pyType t => .ok ⟨name, t⟩
  | .boolClass => .error .assertionError
  | .keyword s =>
    match keywordToType s with
    | some t => .ok ⟨name, t⟩
    | Option.none => .error .assertionError

/-- A value stored in a table cell (the subset of Python values the demo
drives through the layer: integers, strings and `None`). -/
inductive Val where
  | vInt (n : Int)
  | vStr (s : String)
  | vNull
deriving DecidableEq, Repr

/-- Python `str(value)`, as used when a value is interpolated into a
statement (`f"{key} = '{value}'"`). -/
def renderVal : Val → String
  | .vInt n => toString n
  | .vStr s => s
  | .vNull => "None"

/-- A live table: its columns (name and type) and its rows. -/
structure Table where
  cols : List Column
  rows : List (List Val)
deriving DecidableEq, Repr

/-- The database: an association list from table name to table. -/
abbrev DB := List (String × Table)

/-- Look up a table by name. -/
def DB.getTable (db : DB) (t : String) : Option Table :=
  db.lookup t

/-- Replace the table stored under a name. -/
def DB.setTable (db : DB) (t : String) (tb : Table) : DB :=
  db.map (fun kv => if kv.1 = t then (t, tb) else kv)

/-- Add a fresh table. -/
def DB.addTable (db : DB) (t : String) (tb : Table) : DB :=
  db ++ [(t, tb)]

/-- SQL comparison of a stored cell against a quoted literal, as produced by
statement interpolation.  `NULL = 'anything'` is never true; a non-null cell
compares equal to the literal exactly when its textual rendering (after the
engine's affinity conversion, which round-trips through the same decimal
rendering for the values modelled here) equals the literal. -/
def condMatches (cell : Val) (lit : String) : Bool :=
  match cell with
  | .vNull => false
  | c => renderVal c == lit

/-- Whether a row satisfies the conjunction `k1 = 'v1' AND k2 = 'v2' AND ...`
of a generated `DELETE` statement, with each key resolved against the
table's columns. -/
def rowMatchesConds (cols : List Column) (row : List Val)
    (conds : List (String × String)) : Bool :=
  conds.all (fun kv =>
    match (cols.zip row).find? (fun cr => cr.1.name == kv.1) with
    | some cr => condMatches cr.2 kv.2
    | Option.none => false)

/-- The statements the modelled methods build.  The `DELETE` conditions carry
the already-interpolated literal strings, since only the rendered text
reaches the driver. -/
inductive Stmt where
  | selectMaster (table : String)
  | pragma (table : String)
  | create (table : String) (cols : List Column)
  /-- The drop loop interpolates a `Column` object into the f-string, so the
  statement text contains the object's default repr. -/
  | alterDropObj (table : String)
  | selectAll (table : String)
  | deleteRows (table : String) (conds : List (String × String))
deriving DecidableEq, Repr

/-- One column's fragment of a CREATE statement: `f"{column.name} {sql_types[column.type]}"`. -/
def renderColumnDef (c : Column) : String :=
  c.name ++ " " ++ sql_types c.type

/-- The exact statement text the source interpolates.  In the
`alterDropObj` case the Python f-string renders the `Column` object's
default repr (`<__main__.Column object at 0x...>`); the address part is
elided here, which is sound because no behaviour depends on it: the text is
malformed SQL either way. -/
def Stmt.render : Stmt → String
  | .selectMaster t =>
    "SELECT name FROM sqlite_master WHERE type=\"table\" AND name=\"" ++ t ++ "\""
  | .pragma t => "PRAGMA table_info(" ++ t ++ ")"
  | .create t cols =>
    "CREATE TABLE " ++ t ++ " (" ++
      String.intercalate ", " (cols.map renderColumnDef) ++ ")"
  | .alterDropObj t => "ALTER TABLE " ++ t ++ " DROP COLUMN <Column object>"
  | .selectAll t => "SELECT * FROM " ++ t
  | .deleteRows t conds =>
    "DELETE FROM " ++ t ++ " WHERE " ++
      String.intercalate " AND " (conds.map (fun kv => kv.1 ++ " = '" ++ kv.2 ++ "'"))

/-- The cursor's last result set, by query shape. -/
inductive CursorData where
  | empty
  | masterRows (names : List String)
  | tableInfo (info : List (String × String))
  | resultRows (rows : List (List Val))
deriving DecidableEq, Repr

/-- Engine semantics of one statement against the current database view:
`none` means the engine rejects the statement (sqlite raises), `some`
returns the updated view and the cursor's result set.
A `CREATE` fails if the table exists, has no columns (empty parenthesis list
is a syntax error) or repeats a column name; the malformed drop statement
always fails; `SELECT *` and `DELETE` fail on a missing table, and a
`DELETE` naming an unknown column fails. -/
def Stmt.run : Stmt → DB → Option (DB × CursorData)
  | .selectMaster t, db =>
    some (db, .masterRows (if (DB.getTable db t).isSome then [t] else []))
  | .pragma t, db =>
    some (db, .tableInfo
      (match DB.getTable db t with
        | some tb => tb.cols.map (fun c => (c.name, sql_types c.type))
        | Option.none => []))
  | .create t cols, db =>
    if (DB.getTable db t).isSome then Option.none
    else if cols.isEmpty then Option.none
    else if (cols.map Column.name).Nodup then
      some (DB.addTable db t ⟨cols, []⟩, .empty)
    else Option.none
  | .alterDropObj _, _ => Option.none
  | .selectAll t, db =>
    match DB.getTable db t with
    | some tb => some (db, .resultRows tb.rows)
    | Option.none => Option.none
  | .deleteRows t conds, db =>
    match DB.getTable db t with
    | Option.none => Option.none
    | some tb =>
      if conds.all (fun kv => tb.cols.any (fun c => c.name == kv.1)) then
        some (DB.setTable db t
          ⟨tb.cols, tb.rows.filter (fun row => !rowMatchesConds tb.cols row conds)⟩,
          .empty)
      else Option.none

/-- One entry of `self.transaction`/`self.history`: the Python tuple
`(command, ok, message)` on success, `(command, ok, message, error)` on
failure (`err` is `none` for the 3-tuple). -/
structure TxEntry where
  cmd : String
  ok : Bool
  msg : Option String
  err : Option String
deriving DecidableEq, Repr

/-- The state of one `BetterSQL` instance together with its sqlite
connection. -/
structure BSQL where
  /-- Durable database contents (after the last commit). -/
  committed : DB
  /-- The connection's current view, including uncommitted changes. -/
  current : DB
  /-- The cursor's last successful result set. -/
  cursor : CursorData
  /-- `self.transaction`: pending entries. -/
  transaction : List TxEntry
  /-- `self.history`: entries moved here by `_commit`. -/
  history : List TxEntry
  /-- Number of `self.database.commit()` calls so far. -/
  commits : Nat
  /-- Number of `self.database.rollback()` calls so far. -/
  rollbacks : Nat
  /-- Number of `self.cursor.execute(...)` calls so far. -/
  execCount : Nat
  /-- Injected driver failures, one entry consumed per executed statement;
  `[]` means no injected failures. -/
  oracle : List Bool
deriving DecidableEq, Repr

/-- `BetterSQL.execute` (`src/main.py` lines 99-116): run the statement,
append a success or failure entry to `self.transaction` unless `exclude`,
and return whether it succeeded.  A failed statement leaves the database
view and the cursor unchanged.  (The theorems below never fetch from the
cursor after a failed statement, so no commitment is made about
fetch-after-error behaviour.) -/
def BSQL.execute (s : BSQL) (cmd : Stmt) (exclude : Bool) (msg : Option String) :
    BSQL × Bool :=
  let inj := s.oracle.headD false
  let s := { s with oracle := s.oracle.tail, execCount := s.execCount + 1 }
  match (if inj then Option.none else cmd.run s.current) with
  | some (db, cur) =>
    let tx := if exclude then s.transaction
      else s.transaction ++ [⟨cmd.render, true, msg, Option.none⟩]
    ({ s with current := db, cursor := cur, transaction := tx }, true)
  | Option.none =>
    let tx := if exclude then s.transaction
      else s.transaction ++ [⟨cmd.render, false, msg, some "DriverError"⟩]
    ({ s with transaction := tx }, false)

/-- `BetterSQL._commit` (`src/main.py` lines 118-133): move the pending
entries into the history; if any entry failed, call `rollback` (reverting
the current view to the committed one) and clear the transaction, otherwise
call `commit` (making the current view durable) and clear the
transaction. -/
def BSQL._commit (s : BSQL) : BSQL :=
  let s := { s with history := s.history ++ s.transaction }
  if s.transaction.any (fun c => !c.ok) then
    { s with current := s.committed, rollbacks := s.rollbacks + 1, transaction := [] }
  else
    { s with committed := s.current, commits := s.commits + 1, transaction := [] }

/-- `BetterSQL.table_exists` (`src/main.py` lines 190-201): execute the
sqlite_master query (with the "Checking if table exists" message) and test
`bool(self.cursor.fetchone())`. -/
def BSQL.table_exists (s : BSQL) (table_name : String) : BSQL × Bool :=
  let s := (s.execute (.selectMaster table_name) false (some "Checking if table exists")).1
  (s, match s.cursor with
      | .masterRows names => !names.isEmpty
      | _ => false)

/-- `BetterSQL.get_columns` (`src/main.py` lines 203-211): run
`PRAGMA table_info` (excluded from the transaction) and build
`Column(row[1], row[2])` for each fetched row — note the docstring promises
a list of column *names* but the code returns `Column` objects.  Fetching
from a cursor that does not hold pragma rows would subscript tuples of the
wrong shape (IndexError); that case is never reached by the theorems.
The list comprehension `[Column(row[1], row[2]) for row in rows]` is
`columnsFromInfo`: columns are built left to right, propagating the first
exception. -/
def columnsFromInfo : List (String × String) → Except PyErr (List Column)
  | [] => .ok []
  | nk :: rest => do
    let c ← Column.init nk.1 (.keyword nk.2)
    let cs ← columnsFromInfo rest
    .ok (c :: cs)

def BSQL.get_columns (s : BSQL) (table_name : String) :
    BSQL × Except PyErr (List Column) :=
  let s := (s.execute (.pragma table_name) true Option.none).1
  (s, match s.cursor with
      | .tableInfo info => columnsFromInfo info
      | _ => .error .indexError)

/-- Python `==` between a `str` and a `Column` instance is always `False`
(`Column` defines no `__eq__`), so
`[column.name for column in columns] == table_columns` — a list of names
against the list of `Column` objects returned by `get_columns` — holds
exactly when both lists are empty. -/
def namesEqColumns (names : List String) (cols : List Column) : Bool :=
  names.isEmpty && cols.isEmpty

/-- `column not in table_columns` with `column` a `str` and `table_columns`
a list of `Column` objects: `str == Column` is always `False`, so membership
is always `False`. -/
def strInColumns (_n : String) (_cols : List Column) : Bool := false

/-- `column not in columns` with `column` a `Column` object freshly built by
`get_columns` and `columns` the caller's `Column` objects: default equality
is object identity and the objects are distinct, so membership is always
`False`. -/
def columnInColumns (_c : Column) (_cols : List Column) : Bool := false

/-- The `to_create`/`to_delete` computation of `BetterSQL.create_table`
(`src/main.py` lines 148-157), exactly as the code performs it; because of
the heterogeneous comparisons above, `to_create` is always every declared
name and `to_delete` is always every observed column. -/
def computeDelta (columns : List Column) (table_columns : List Column) :
    List String × List Column :=
  ((columns.map Column.name).filter (fun n => !strInColumns n table_columns),
   table_columns.filter (fun c => !columnInColumns c columns))

/-- `BetterSQL.create_table` (`src/main.py` lines 135-176).  If the table
exists: fetch its columns; return `False` when the (heterogeneous) equality
check succeeds; otherwise compute the delta.  A non-empty `to_create` list
makes the first f-string of the add loop evaluate `columns[column_name]`
with a string index into a list — an uncaught TypeError.  Otherwise the
drop loop interpolates each `Column` object into an ALTER statement.  If
the table does not exist, one CREATE statement is built.  Completing either
path calls `_commit` and returns `True`. -/
def BSQL.create_table (s : BSQL) (table_name : String) (columns : List Column) :
    BSQL × Except PyErr Bool :=
  let (s, texists) := s.table_exists table_name
  if texists then
    match s.get_columns table_name with
    | (s, .error e) => (s, .error e)
    | (s, .ok table_columns) =>
      if namesEqColumns (columns.map Column.name) table_columns then
        (s, .ok false)
      else
        let delta := computeDelta columns table_columns
        match delta.1 with
        | _ :: _ => (s, .error .typeError)
        | [] =>
          let s := delta.2.foldl
            (fun acc _c => (acc.execute (.alterDropObj table_name) false Option.none).1) s
          (s._commit, .ok true)
  else
    let s := (s.execute (.create table_name columns) false Option.none).1
    (s._commit, .ok true)

/-- A keyword-argument filter value in `get_all_records`/`delete_all_records`:
either a callable predicate or a plain value compared for equality. -/
inductive Filt where
  | callableF (f : Val → Bool)
  | valF (v : Val)

/-- Whether one filter accepts a value: a callable is applied
(`if not value(record[column]): break`), a plain value is compared with `==`
(`elif record[column] != value: break`). -/
def filtPass : Filt → Val → Bool
  | .callableF f, v => f v
  | .valF w, v => w == v

/-- A fetched record as the dict
`{columns[i].name: record[i] for i in range(len(columns))}` — an
association list in column order. -/
def recordOf (cols : List Column) (row : List Val) : List (String × Val) :=
  (cols.zip row).map (fun cr => (cr.1.name, cr.2))

/-- Building the record dict subscripts `record[i]` for every
`i < len(columns)`, so a row shorter than the column list raises
IndexError; otherwise extra cells are ignored (zip truncates). -/
def buildRecord (cols : List Column) (row : List Val) :
    Except PyErr (List (String × Val)) :=
  if row.length < cols.length then .error .indexError
  else .ok (recordOf cols row)

/-- The inner `for column, value in kwargs.items()` loop with its
`for/else`: stop with `False` at the first failing filter, raise KeyError if
`record[column]` is missing, and produce `True` when no filter broke. -/
def recordPasses (record : List (String × Val)) :
    List (String × Filt) → Except PyErr Bool
  | [] => .ok true
  | kf :: rest =>
    match record.lookup kf.1 with
    | Option.none => .error .keyError
    | some v => if filtPass kf.2 v then recordPasses record rest else .ok false

/-- The list comprehension building one dict per fetched row, left to
right, propagating the first exception. -/
def buildRecords (cols : List Column) :
    List (List Val) → Except PyErr (List (List (String × Val)))
  | [] => .ok []
  | row :: rest => do
    let r ← buildRecord cols row
    let rs ← buildRecords cols rest
    .ok (r :: rs)

/-- The outer `for record in records` loop accumulating `to_output`. -/
def filterRecords (records : List (List (String × Val)))
    (kwargs : List (String × Filt)) :
    Except PyErr (List (List (String × Val))) :=
  match records with
  | [] => .ok []
  | r :: rest => do
    let b ← recordPasses r kwargs
    let out ← filterRecords rest kwargs
    .ok (if b then r :: out else out)

/-- `BetterSQL.get_all_records` (`src/main.py` lines 227-251): run
`SELECT *` (excluded from the transaction exactly when filters were given),
fetch the rows, fetch the columns, build the record dicts, and either
return them all (no filters) or keep those passing every filter. -/
def BSQL.get_all_records (s : BSQL) (table_name : String)
    (kwargs : List (String × Filt)) :
    BSQL × Except PyErr (List (List (String × Val))) :=
  let s := (s.execute (.selectAll table_name) (!kwargs.isEmpty) Option.none).1
  let fetched := match s.cursor with
    | .resultRows rows => rows
    | _ => []
  let gc := s.get_columns table_name
  (gc.1,
    match gc.2 with
    | .error e => .error e
    | .ok columns =>
      match buildRecords columns fetched with
      | .error e => .error e
      | .ok records =>
        if kwargs.isEmpty then .ok records
        else filterRecords records kwargs)

/-- `BetterSQL.delete_all_records` (`src/main.py` lines 253-266): select the
records passing the filters, then execute one
`DELETE FROM t WHERE k1 = 'v1' AND ...` per selected record.  The function
body has no return statement, so despite the declared `-> bool` annotation
it returns Python `None` (modelled as `Option.none : Option Bool`), and it
never calls `_commit`. -/
def BSQL.delete_all_records (s : BSQL) (table_name : String)
    (kwargs : List (String × Filt)) : BSQL × Except PyErr (Option Bool) :=
  let ga := s.get_all_records table_name kwargs
  match ga.2 with
  | .error e => (ga.1, .error e)
  | .ok records =>
    (records.foldl
      (fun acc record =>
        (acc.execute
          (.deleteRows table_name (record.map (fun kv => (kv.1, renderVal kv.2))))
          false Option.none).1) ga.1,
      .ok Option.none)

/-! ### Definitions following the specification's words
These are not translations of the source; they state what the spec says the
computation should be, for comparison with the source-derived definitions. -/

/-- Spec 4.1: "toAdd = declared columns whose name is absent from
observed." -/
def specToAdd (declared observed : List Column) : List Column :=
  declared.filter (fun c => !(observed.map Column.name).contains c.name)

/-- Spec 4.1: "toDrop = observed columns whose name is absent from
declared." -/
def specToDrop (declared observed : List Column) : List Column :=
  observed.filter (fun c => !(declared.map Column.name).contains c.name)

/-- Whether a record satisfies every filter: every filtered column is
present in the record and its value passes that column's filter. -/
def passAll (r : List (String × Val)) (kwargs : List (String × Filt)) : Bool :=
  kwargs.all (fun kf =>
    match r.lookup kf.1 with
    | some v => filtPass kf.2 v
    | Option.none => false)

/-- The declarative selection the filter loop is claimed to implement: keep
exactly the records for which every filtered column is present and
satisfies its filter. -/
def specSelect (cols : List Column) (rows : List (List Val))
    (kwargs : List (String × Filt)) : List (List (String × Val)) :=
  (rows.map (recordOf cols)).filter (fun r => passAll r kwargs)

/-! ### Concrete states used by the witnesses and counterexamples -/

/-- A fresh instance over an empty database: the state right after
`BetterSQL(...)` on a new file, with no injected driver failures. -/
def freshState : BSQL :=
  ⟨[], [], .empty, [], [], 0, 0, 0, []⟩

/-- A database holding one table `T` with text columns `A` and `B` and no
rows. -/
def dbTAB : DB :=
  [("T", ⟨[⟨"A", .str⟩, ⟨"B", .str⟩], []⟩)]

/-- An idle instance over `dbTAB` (current view in sync with the committed
state, empty transaction, healthy driver). -/
def stateTAB : BSQL :=
  ⟨dbTAB, dbTAB, .empty, [], [], 0, 0, 0, []⟩

/-- A database holding one table `T` with a single text column `A` and one
row whose cell is NULL. -/
def dbNull : DB :=
  [("T", ⟨[⟨"A", .str⟩], [[Val.vNull]]⟩)]

/-- An idle instance over `dbNull`. -/
def stateNull : BSQL :=
  ⟨dbNull, dbNull, .empty, [], [], 0, 0, 0, []⟩

/-- A database mirroring the repository's demo: table `Testing` with
columns `Name` (str) and `Age` (int) and three records. -/
def dbTesting : DB :=
  [("Testing", ⟨[⟨"Name", .str⟩, ⟨"Age", .int⟩],
    [[Val.vStr "John", Val.vInt 20],
     [Val.vStr "Bob", Val.vInt 30],
     [Val.vStr "Alice", Val.vInt 40]]⟩)]

/-- An idle instance over `dbTesting`. -/
def stateTesting : BSQL :=
  ⟨dbTesting, dbTesting, .empty, [], [], 0, 0, 0, []⟩

/-- Decidable equality for `Except`, needed to evaluate the concrete
scenarios by `decide`. -/
instance {ε α : Type} [DecidableEq ε] [DecidableEq α] : DecidableEq (Except ε α) :=
  fun x y =>
    match x, y with
    | .ok a, .ok b => decidable_of_iff (a = b) (by simp)
    | .error e, .error f => decidable_of_iff (e = f) (by simp)
    | .ok _, .error _ => .isFalse (fun h => Except.noConfusion h)
    | .error _, .ok _ => .isFalse (fun h => Except.noConfusion h)

/-! ### Reduction lemmas -/

/-- The transaction entry recorded by the existence check. -/
def selEntry (t : String) : TxEntry :=
  ⟨(Stmt.selectMaster t).render, true, some "Checking if table exists", Option.none⟩

/-- The transaction entry recorded by a failed statement. -/
def failEntry (cmd : Stmt) : TxEntry :=
  ⟨cmd.render, false, Option.none, some "DriverError"⟩

/-- The transaction entry recorded by a successful statement. -/
def okEntry (cmd : Stmt) : TxEntry :=
  ⟨cmd.render, true, Option.none, Option.none⟩

theorem keywordToType_sql_types (t : PyType) :
    keywordToType (sql_types t) = some t := by
  cases t <;> rfl

theorem columnsFromInfo_roundtrip (cs : List Column) :
    columnsFromInfo (cs.map (fun c => (c.name, sql_types c.type))) = .ok cs := by
  induction cs with
  | nil => rfl
  | cons c cs ih =>
    simp only [List.map_cons, columnsFromInfo, Column.init, keywordToType_sql_types, ih]
    rfl

theorem execute_ok_eq (s : BSQL) (cmd : Stmt) (exclude : Bool) (msg : Option String)
    (db : DB) (cur : CursorData)
    (horacle : s.oracle = []) (hrun : cmd.run s.current = some (db, cur)) :
    s.execute cmd exclude msg =
      ({ s with
          current := db
          cursor := cur
          transaction :=
            if exclude then s.transaction else s.transaction ++ [⟨cmd.render, true, msg, Option.none⟩]
          execCount := s.execCount + 1
          oracle := [] }, true) := by
  simp [BSQL.execute, horacle, hrun]

theorem execute_fail_eq (s : BSQL) (cmd : Stmt) (exclude : Bool) (msg : Option String)
    (horacle : s.oracle = []) (hrun : cmd.run s.current = Option.none) :
    s.execute cmd exclude msg =
      ({ s with
          transaction :=
            if exclude then s.transaction
            else s.transaction ++ [⟨cmd.render, false, msg, some "DriverError"⟩]
          execCount := s.execCount + 1
          oracle := [] }, false) := by
  simp [BSQL.execute, horacle, hrun]

theorem table_exists_eq (s : BSQL) (t : String) (horacle : s.oracle = []) :
    s.table_exists t =
      ({ s with
          cursor := .masterRows (if (DB.getTable s.current t).isSome then [t] else [])
          transaction := s.transaction ++ [selEntry t]
          execCount := s.execCount + 1
          oracle := [] },
        (DB.getTable s.current t).isSome) := by
  have hrun : (Stmt.selectMaster t).run s.current =
      some (s.current, .masterRows (if (DB.getTable s.current t).isSome then [t] else [])) := rfl
  rw [BSQL.table_exists, execute_ok_eq s _ false _ _ _ horacle hrun]
  cases h : (DB.getTable s.current t) <;> simp [h, selEntry]

theorem get_columns_eq (s : BSQL) (t : String) (tb : Table)
    (horacle : s.oracle = []) (htable : DB.getTable s.current t = some tb) :
    s.get_columns t =
      ({ s with
          cursor := .tableInfo (tb.cols.map (fun c => (c.name, sql_types c.type)))
          execCount := s.execCount + 1
          oracle := [] },
        .ok tb.cols) := by
  have hrun : (Stmt.pragma t).run s.current =
      some (s.current, .tableInfo (tb.cols.map (fun c => (c.name, sql_types c.type)))) := by
    simp [Stmt.run, htable]
  rw [BSQL.get_columns, execute_ok_eq s _ true _ _ _ horacle hrun]
  simp [columnsFromInfo_roundtrip]

theorem dropLoop_eq (t : String) (cs : List Column) (s : BSQL) (horacle : s.oracle = []) :
    cs.foldl (fun acc _c => (acc.execute (.alterDropObj t) false Option.none).1) s =
      { s with
          transaction := s.transaction ++ cs.map (fun _ => failEntry (.alterDropObj t))
          execCount := s.execCount + cs.length
          oracle := [] } := by
  induction cs generalizing s with
  | nil =>
    cases s with
    | mk cm cu cur tx h co ro ec or => simp_all
  | cons c cs ih =>
    have hrun : (Stmt.alterDropObj t).run s.current = Option.none := rfl
    rw [List.foldl_cons, execute_fail_eq s _ false _ horacle hrun]
    rw [ih _ (by simp)]
    simp [failEntry]
    omega

theorem commit_any_fail (s : BSQL) (h : s.transaction.any (fun c => !c.ok) = true) :
    s._commit =
      { s with
          history := s.history ++ s.transaction
          current := s.committed
          rollbacks := s.rollbacks + 1
          transaction := [] } := by
  simp [BSQL._commit, h]

theorem commit_all_ok (s : BSQL) (h : s.transaction.any (fun c => !c.ok) = false) :
    s._commit =
      { s with
          history := s.history ++ s.transaction
          committed := s.current
          commits := s.commits + 1
          transaction := [] } := by
  simp [BSQL._commit, h]

/-! ### Path characterizations of create_table (healthy driver) -/

theorem table_exists_mk (cm cu : DB) (cur : CursorData) (tx hist : List TxEntry)
    (co ro ec : Nat) (t : String) :
    (BSQL.mk cm cu cur tx hist co ro ec []).table_exists t =
      (BSQL.mk cm cu
        (.masterRows (if (DB.getTable cu t).isSome then [t] else []))
        (tx ++ [selEntry t]) hist co ro (ec + 1) [],
        (DB.getTable cu t).isSome) := by
  cases h : DB.getTable cu t <;>
    simp [BSQL.table_exists, BSQL.execute, Stmt.run, selEntry, h]

theorem get_columns_mk (cm cu : DB) (cur : CursorData) (tx hist : List TxEntry)
    (co ro ec : Nat) (t : String) (tb : Table) (htable : DB.getTable cu t = some tb) :
    (BSQL.mk cm cu cur tx hist co ro ec []).get_columns t =
      (BSQL.mk cm cu
        (.tableInfo (tb.cols.map (fun c => (c.name, sql_types c.type))))
        tx hist co ro (ec + 1) [],
        .ok tb.cols) := by
  simp [BSQL.get_columns, BSQL.execute, Stmt.run, htable, columnsFromInfo_roundtrip]

theorem dropLoop_mk (t : String) (cs : List Column) (cm cu : DB) (cur : CursorData)
    (tx hist : List TxEntry) (co ro ec : Nat) :
    cs.foldl (fun acc _c => (acc.execute (.alterDropObj t) false Option.none).1)
        (BSQL.mk cm cu cur tx hist co ro ec []) =
      BSQL.mk cm cu cur
        (tx ++ cs.map (fun _ => failEntry (.alterDropObj t)))
        hist co ro (ec + cs.length) [] := by
  induction cs generalizing tx ec with
  | nil => simp
  | cons c cs ih =>
    rw [List.foldl_cons]
    have hstep : ((BSQL.mk cm cu cur tx hist co ro ec []).execute
        (.alterDropObj t) false Option.none).1 =
        BSQL.mk cm cu cur (tx ++ [failEntry (.alterDropObj t)]) hist co ro (ec + 1) [] := by
      simp [BSQL.execute, Stmt.run, failEntry]
    rw [hstep, ih, List.append_assoc]
    simp only [List.singleton_append, List.map_cons, List.length_cons]
    have harith : ec + 1 + cs.length = ec + (cs.length + 1) := by omega
    rw [harith]

theorem commit_mk_any_fail (cm cu : DB) (cur : CursorData) (tx hist : List TxEntry)
    (co ro ec : Nat) (or : List Bool) (h : tx.any (fun c => !c.ok) = true) :
    (BSQL.mk cm cu cur tx hist co ro ec or)._commit =
      BSQL.mk cm cm cur [] (hist ++ tx) co (ro + 1) ec or := by
  simp [BSQL._commit, h]

theorem commit_mk_all_ok (cm cu : DB) (cur : CursorData) (tx hist : List TxEntry)
    (co ro ec : Nat) (or : List Bool) (h : tx.any (fun c => !c.ok) = false) :
    (BSQL.mk cm cu cur tx hist co ro ec or)._commit =
      BSQL.mk cu cu cur [] (hist ++ tx) (co + 1) ro ec or := by
  simp [BSQL._commit, h]

theorem create_table_mk_existing_nonempty (cm cu : DB) (cur : CursorData)
    (tx hist : List TxEntry) (co ro ec : Nat) (t : String) (cols : List Column)
    (tb : Table) (htable : DB.getTable cu t = some tb) (hcols : cols ≠ []) :
    (BSQL.mk cm cu cur tx hist co ro ec []).create_table t cols =
      (BSQL.mk cm cu
        (.tableInfo (tb.cols.map (fun c => (c.name, sql_types c.type))))
        (tx ++ [selEntry t]) hist co ro (ec + 1 + 1) [],
        .error .typeError) := by
  match cols, hcols with
  | c0 :: cs, _ =>
    simp only [BSQL.create_table, table_exists_mk, htable, Option.isSome_some, if_true]
    rw [get_columns_mk cm cu _ _ hist co ro (ec + 1) t tb htable]
    simp [namesEqColumns, computeDelta, strInColumns]

theorem create_table_mk_existing_both_empty (cm cu : DB) (cur : CursorData)
    (tx hist : List TxEntry) (co ro ec : Nat) (t : String)
    (tb : Table) (htable : DB.getTable cu t = some tb) (htbcols : tb.cols = []) :
    (BSQL.mk cm cu cur tx hist co ro ec []).create_table t [] =
      (BSQL.mk cm cu (.tableInfo []) (tx ++ [selEntry t]) hist co ro (ec + 1 + 1) [],
        .ok false) := by
  simp only [BSQL.create_table, table_exists_mk, htable, Option.isSome_some, if_true]
  rw [get_columns_mk cm cu _ _ hist co ro (ec + 1) t tb htable]
  simp [namesEqColumns, htbcols, columnsFromInfo]

theorem create_table_mk_existing_drop (cm cu : DB) (cur : CursorData)
    (tx hist : List TxEntry) (co ro ec : Nat) (t : String)
    (tb : Table) (htable : DB.getTable cu t = some tb) (htbcols : tb.cols ≠ []) :
    (BSQL.mk cm cu cur tx hist co ro ec []).create_table t [] =
      (BSQL.mk cm cm
        (.tableInfo (tb.cols.map (fun c => (c.name, sql_types c.type))))
        []
        (hist ++ (tx ++ [selEntry t] ++ tb.cols.map (fun _ => failEntry (.alterDropObj t))))
        co (ro + 1) (ec + 1 + 1 + tb.cols.length) [],
        .ok true) := by
  simp only [BSQL.create_table, table_exists_mk, htable, Option.isSome_some, if_true]
  rw [get_columns_mk cm cu _ _ hist co ro (ec + 1) t tb htable]
  match htb : tb.cols, htbcols with
  | tc0 :: tcs, _ =>
    simp only [namesEqColumns, List.map_nil, List.isEmpty_nil, List.isEmpty_cons,
      Bool.and_false, Bool.false_eq_true, if_false, computeDelta, strInColumns,
      columnInColumns, Bool.not_false, List.filter_nil]
    rw [List.filter_true]
    rw [dropLoop_mk]
    have hfail : ((tx ++ [selEntry t]) ++
        (tc0 :: tcs).map (fun _ => failEntry (Stmt.alterDropObj t))).any
          (fun c => !c.ok) = true := by
      simp [failEntry]
    rw [commit_mk_any_fail _ _ _ _ _ _ _ _ _ hfail]

theorem create_table_mk_absent (cm cu : DB) (cur : CursorData)
    (tx hist : List TxEntry) (co ro ec : Nat) (t : String) (cols : List Column)
    (habsent : DB.getTable cu t = Option.none) :
    (BSQL.mk cm cu cur tx hist co ro ec []).create_table t cols =
      ((BSQL.mk cm cu (.masterRows []) (tx ++ [selEntry t]) hist co ro (ec + 1) []
          |>.execute (.create t cols) false Option.none).1._commit,
        .ok true) := by
  simp only [BSQL.create_table, table_exists_mk, habsent, Option.isSome_none,
    Bool.false_eq_true, if_false]

theorem create_table_mk_absent_ok (cm cu : DB) (cur : CursorData)
    (tx hist : List TxEntry) (co ro ec : Nat) (t : String) (cols : List Column)
    (db2 : DB) (cur2 : CursorData) (habsent : DB.getTable cu t = Option.none)
    (hrun : (Stmt.create t cols).run cu = some (db2, cur2)) :
    (BSQL.mk cm cu cur tx hist co ro ec []).create_table t cols =
      ((BSQL.mk cm db2 cur2 (tx ++ [selEntry t, okEntry (.create t cols)])
          hist co ro (ec + 1 + 1) [])._commit, .ok true) := by
  rw [create_table_mk_absent cm cu cur tx hist co ro ec t cols habsent]
  simp [BSQL.execute, hrun, okEntry]

theorem create_table_mk_absent_fail (cm cu : DB) (cur : CursorData)
    (tx hist : List TxEntry) (co ro ec : Nat) (t : String) (cols : List Column)
    (habsent : DB.getTable cu t = Option.none)
    (hrun : (Stmt.create t cols).run cu = Option.none) :
    (BSQL.mk cm cu cur tx hist co ro ec []).create_table t cols =
      ((BSQL.mk cm cu (.masterRows []) (tx ++ [selEntry t, failEntry (.create t cols)])
          hist co ro (ec + 1 + 1) [])._commit, .ok true) := by
  rw [create_table_mk_absent cm cu cur tx hist co ro ec t cols habsent]
  simp [BSQL.execute, hrun, failEntry]

theorem commit_counts (s : BSQL) :
    (s._commit.commits = s.commits + 1 ∧ s._commit.rollbacks = s.rollbacks) ∨
    (s._commit.commits = s.commits ∧ s._commit.rollbacks = s.rollbacks + 1) := by
  cases hx : s.transaction.any (fun c => !c.ok) with
  | false =>
    left
    rw [commit_all_ok s hx]
    exact ⟨rfl, rfl⟩
  | true =>
    right
    rw [commit_any_fail s hx]
    exact ⟨rfl, rfl⟩

theorem execute_preserves (s : BSQL) (cmd : Stmt) (exclude : Bool) (msg : Option String) :
    ((s.execute cmd exclude msg).1).commits = s.commits ∧
    ((s.execute cmd exclude msg).1).rollbacks = s.rollbacks ∧
    ((s.execute cmd exclude msg).1).committed = s.committed ∧
    ((s.execute cmd exclude msg).1).history = s.history := by
  obtain ⟨cm, cu, cur, tx, hist, co, ro, ec, or⟩ := s
  cases or with
  | nil =>
    cases hx : cmd.run cu with
    | none => simp [BSQL.execute, hx]
    | some pr =>
      obtain ⟨db, c2⟩ := pr
      simp [BSQL.execute, hx]
  | cons b rest =>
    cases b with
    | false =>
      cases hx : cmd.run cu with
      | none => simp [BSQL.execute, hx]
      | some pr =>
        obtain ⟨db, c2⟩ := pr
        simp [BSQL.execute, hx]
    | true => simp [BSQL.execute]

/-! ### Claim theorems -/

/-- C2 counterexample (code_bug evidence): at the overlapping input where
declared and observed both consist of the single column `Name`, the claim
says the delta is empty, but the code's `to_create` is `["Name"]` and its
`to_delete` is the whole observed list — the spec-side complement
(`specToAdd`/`specToDrop`) is empty on both sides. -/
theorem c2_delta_wrong_on_overlap :
    computeDelta [⟨"Name", .str⟩] [⟨"Name", .str⟩] =
      (["Name"], [⟨"Name", PyType.str⟩]) ∧
    specToAdd [⟨"Name", .str⟩] [⟨"Name", .str⟩] = [] ∧
    specToDrop [⟨"Name", .str⟩] [⟨"Name", .str⟩] = [] := by
  decide

/-- C3 (code_bug evidence): calling `create_table` twice on a fresh table
with declared schema `[Name: str, Age: int]` yields `True` with the table's
columns equal to the declared schema, but the second call raises an uncaught
TypeError (from `columns[column_name]`) instead of returning `False`
(Unchanged), contradicting the method's own docstring. -/
theorem c3_second_call_type_error :
    (freshState.create_table "Testing" [⟨"Name", .str⟩, ⟨"Age", .int⟩]).2 = .ok true ∧
    DB.getTable (freshState.create_table "Testing"
        [⟨"Name", .str⟩, ⟨"Age", .int⟩]).1.current "Testing" =
      some ⟨[⟨"Name", .str⟩, ⟨"Age", .int⟩], []⟩ ∧
    ((freshState.create_table "Testing" [⟨"Name", .str⟩, ⟨"Age", .int⟩]).1.create_table
        "Testing" [⟨"Name", .str⟩, ⟨"Age", .int⟩]).2 = .error .typeError := by
  decide

/-- C4 counterexample: a `str` column is emitted with the keyword `STRING`,
not `TEXT` — `sql_types` maps `str` to `"STRING"` and the generated CREATE
text for a declared text column contains `STRING`. -/
theorem c4_str_keyword_is_string_not_text :
    sql_types .str = "STRING" ∧ sql_types .str ≠ "TEXT" ∧
    (Stmt.create "Testing" [⟨"Name", .str⟩]).render =
      "CREATE TABLE Testing (Name STRING)" := by
  decide

/-- C4 amended: the generated SQL uses the fixed keyword mapping
Null→NULL, Integer→INTEGER, Real→REAL, Text/str→STRING (not TEXT),
Blob→BLOB, and every declared column is rendered as its name followed by
the mapped keyword. -/
theorem c4_native_type_mapping :
    (sql_types .none = "NULL" ∧ sql_types .int = "INTEGER" ∧
     sql_types .float = "REAL" ∧ sql_types .str = "STRING" ∧
     sql_types .bytes = "BLOB") ∧
    ∀ (t : String) (cols : List Column),
      (Stmt.create t cols).render =
        "CREATE TABLE " ++ t ++ " (" ++
          String.intercalate ", "
            (cols.map (fun c => c.name ++ " " ++ sql_types c.type)) ++ ")" := by
  refine ⟨⟨rfl, rfl, rfl, rfl, rfl⟩, fun t cols => ?_⟩
  rfl

/-- C5 counterexample: a declared schema with two columns both named `Id`
is not rejected before any driver call — `create_table` issues the CREATE
statement to the driver (two statements executed), the driver rejects it,
one rollback happens, and the call returns `True` rather than any
`InvalidColumnSpec`-style error. -/
theorem c5_duplicate_names_reach_driver :
    (freshState.create_table "T" [⟨"Id", .str⟩, ⟨"Id", .str⟩]).2 = .ok true ∧
    (freshState.create_table "T" [⟨"Id", .str⟩, ⟨"Id", .str⟩]).1.execCount = 2 ∧
    (freshState.create_table "T" [⟨"Id", .str⟩, ⟨"Id", .str⟩]).1.rollbacks = 1 ∧
    (freshState.create_table "T" [⟨"Id", .str⟩, ⟨"Id", .str⟩]).1.history =
      [selEntry "T", failEntry (.create "T" [⟨"Id", .str⟩, ⟨"Id", .str⟩])] := by
  decide

/-- C6 counterexample: `create_table` on an existing table with a non-empty
declared list executes the existence-check statement (two statements in
total) yet performs zero commits and zero rollbacks, because it aborts with
TypeError before `_commit`. -/
theorem c6_statement_without_commit_or_rollback :
    (stateTAB.create_table "T" [⟨"A", .str⟩]).2 = .error .typeError ∧
    (stateTAB.create_table "T" [⟨"A", .str⟩]).1.execCount = 2 ∧
    (stateTAB.create_table "T" [⟨"A", .str⟩]).1.commits = 0 ∧
    (stateTAB.create_table "T" [⟨"A", .str⟩]).1.rollbacks = 0 := by
  decide

/-- C1 counterexample: on an existing table `T` with columns `A`, `B` and
declared list `[]`, the generated drop statements both fail; the call does
not stop at the first failing statement (the history records two failed
statements after the successful existence check), and instead of reporting
a StatementFailed error it returns `True` (with one rollback). -/
theorem c1_failure_does_not_stop_or_report :
    (stateTAB.create_table "T" []).2 = .ok true ∧
    (stateTAB.create_table "T" []).1.history.map TxEntry.ok = [true, false, false] ∧
    (stateTAB.create_table "T" []).1.rollbacks = 1 := by
  decide

/-- C7 counterexample: with table `T` holding one record whose only cell is
NULL and no filters, `get_all_records` selects that record, but
`delete_all_records` fails to delete it — the generated
`DELETE ... WHERE A = 'None'` never matches a NULL cell — so the deleted
set is not the selected set. -/
theorem c7_null_record_selected_but_not_deleted :
    (stateNull.get_all_records "T" []).2 = .ok [[("A", Val.vNull)]] ∧
    DB.getTable (stateNull.delete_all_records "T" []).1.current "T" =
      some ⟨[⟨"A", .str⟩], [[Val.vNull]]⟩ := by
  decide

/-- C8 (confirmed): for every call to `create_table` on a table that already
exists (healthy driver), if the declared column list is non-empty, the call
aborts with an uncaught TypeError (from `columns[column_name]` — a list
indexed with a string while building the first ALTER-ADD statement): the
result is the TypeError, no ALTER statement is executed (exactly the two
introspection statements run), and neither commit nor rollback is
performed; the database view is untouched. -/
theorem c8_existing_table_add_loop_type_error (s : BSQL) (t : String)
    (cols : List Column) (tb : Table) (horacle : s.oracle = [])
    (htable : DB.getTable s.current t = some tb) (hcols : cols ≠ []) :
    (s.create_table t cols).2 = .error .typeError ∧
    (s.create_table t cols).1.commits = s.commits ∧
    (s.create_table t cols).1.rollbacks = s.rollbacks ∧
    (s.create_table t cols).1.current = s.current ∧
    (s.create_table t cols).1.committed = s.committed ∧
    (s.create_table t cols).1.execCount = s.execCount + 2 ∧
    (s.create_table t cols).1.transaction = s.transaction ++ [selEntry t] := by
  obtain ⟨cm, cu, cur, tx, hist, co, ro, ec, or⟩ := s
  have hor : or = [] := horacle
  subst hor
  rw [create_table_mk_existing_nonempty cm cu cur tx hist co ro ec t cols tb htable hcols]
  exact ⟨rfl, rfl, rfl, rfl, rfl, rfl, rfl⟩

/-- Witness for C8 at a concrete input: table `T` exists with columns `A`,
`B`, and the declared list `[C]` is non-empty. -/
theorem c8_witness :
    stateTAB.oracle = [] ∧
    DB.getTable stateTAB.current "T" = some ⟨[⟨"A", .str⟩, ⟨"B", .str⟩], []⟩ ∧
    ([(⟨"C", PyType.str⟩ : Column)] ≠ []) ∧
    ((stateTAB.create_table "T" [⟨"C", .str⟩]).2 = .error .typeError ∧
      (stateTAB.create_table "T" [⟨"C", .str⟩]).1.commits = stateTAB.commits ∧
      (stateTAB.create_table "T" [⟨"C", .str⟩]).1.rollbacks = stateTAB.rollbacks ∧
      (stateTAB.create_table "T" [⟨"C", .str⟩]).1.current = stateTAB.current ∧
      (stateTAB.create_table "T" [⟨"C", .str⟩]).1.committed = stateTAB.committed ∧
      (stateTAB.create_table "T" [⟨"C", .str⟩]).1.execCount = stateTAB.execCount + 2 ∧
      (stateTAB.create_table "T" [⟨"C", .str⟩]).1.transaction =
        stateTAB.transaction ++ [selEntry "T"]) :=
  ⟨rfl, by decide, by decide,
    c8_existing_table_add_loop_type_error stateTAB "T" [⟨"C", .str⟩]
      ⟨[⟨"A", .str⟩, ⟨"B", .str⟩], []⟩ rfl (by decide) (by decide)⟩

/-- C6 amended: with a healthy driver, every invocation of `create_table`
that completes by reaching `_commit` (these are exactly the invocations
returning `True`) performs exactly one commit or exactly one rollback,
never both; invocations returning `False` (unchanged) or aborting with an
exception perform neither a commit nor a rollback, even though they have
executed at least the existence-check statement. -/
theorem c6_commit_xor_rollback (s : BSQL) (t : String) (cols : List Column)
    (horacle : s.oracle = []) :
    ((s.create_table t cols).2 = .ok true →
      ((s.create_table t cols).1.commits = s.commits + 1 ∧
        (s.create_table t cols).1.rollbacks = s.rollbacks) ∨
      ((s.create_table t cols).1.commits = s.commits ∧
        (s.create_table t cols).1.rollbacks = s.rollbacks + 1)) ∧
    ((s.create_table t cols).2 = .ok false →
      (s.create_table t cols).1.commits = s.commits ∧
      (s.create_table t cols).1.rollbacks = s.rollbacks) ∧
    (∀ e, (s.create_table t cols).2 = .error e →
      (s.create_table t cols).1.commits = s.commits ∧
      (s.create_table t cols).1.rollbacks = s.rollbacks) := by
  obtain ⟨cm, cu, cur, tx, hist, co, ro, ec, or⟩ := s
  have hor : or = [] := horacle
  subst hor
  cases htab : DB.getTable cu t with
  | none =>
    rw [create_table_mk_absent cm cu cur tx hist co ro ec t cols htab]
    refine ⟨fun _ => ?_, fun hfalse => ?_, fun e he => ?_⟩
    · have hp := execute_preserves
        (BSQL.mk cm cu (.masterRows []) (tx ++ [selEntry t]) hist co ro (ec + 1) [])
        (.create t cols) false Option.none
      have hc := commit_counts
        ((BSQL.mk cm cu (.masterRows []) (tx ++ [selEntry t]) hist co ro (ec + 1) []).execute
          (.create t cols) false Option.none).1
      rcases hc with ⟨h1, h2⟩ | ⟨h1, h2⟩
      · left
        constructor
        · rw [h1, hp.1]
        · rw [h2, hp.2.1]
      · right
        constructor
        · rw [h1, hp.1]
        · rw [h2, hp.2.1]
    · simp at hfalse
    · simp at he
  | some tb =>
    cases hcols : cols with
    | nil =>
      cases htbc : tb.cols with
      | nil =>
        rw [create_table_mk_existing_both_empty cm cu cur tx hist co ro ec t tb htab htbc]
        refine ⟨fun htrue => ?_, fun _ => ⟨rfl, rfl⟩, fun e he => ?_⟩
        · simp at htrue
        · simp at he
      | cons a l =>
        have htbne : tb.cols ≠ [] := by
          rw [htbc]
          exact fun h => List.noConfusion h
        rw [create_table_mk_existing_drop cm cu cur tx hist co ro ec t tb htab htbne]
        refine ⟨fun _ => Or.inr ⟨rfl, rfl⟩, fun hfalse => ?_, fun e he => ?_⟩
        · simp at hfalse
        · simp at he
    | cons c0 cs =>
      have hne : (c0 :: cs : List Column) ≠ [] := fun h => List.noConfusion h
      rw [create_table_mk_existing_nonempty cm cu cur tx hist co ro ec t (c0 :: cs) tb htab hne]
      refine ⟨fun htrue => ?_, fun hfalse => ?_, fun e _ => ⟨rfl, rfl⟩⟩
      · simp at htrue
      · simp at hfalse

/-- Witness for C6 at a concrete input: creating a fresh table commits
once. -/
theorem c6_witness :
    freshState.oracle = [] ∧
    (((freshState.create_table "Testing" [⟨"Name", .str⟩]).2 = .ok true →
      ((freshState.create_table "Testing" [⟨"Name", .str⟩]).1.commits =
          freshState.commits + 1 ∧
        (freshState.create_table "Testing" [⟨"Name", .str⟩]).1.rollbacks =
          freshState.rollbacks) ∨
      ((freshState.create_table "Testing" [⟨"Name", .str⟩]).1.commits =
          freshState.commits ∧
        (freshState.create_table "Testing" [⟨"Name", .str⟩]).1.rollbacks =
          freshState.rollbacks + 1)) ∧
    ((freshState.create_table "Testing" [⟨"Name", .str⟩]).2 = .ok false →
      (freshState.create_table "Testing" [⟨"Name", .str⟩]).1.commits =
        freshState.commits ∧
      (freshState.create_table "Testing" [⟨"Name", .str⟩]).1.rollbacks =
        freshState.rollbacks) ∧
    (∀ e, (freshState.create_table "Testing" [⟨"Name", .str⟩]).2 = .error e →
      (freshState.create_table "Testing" [⟨"Name", .str⟩]).1.commits =
        freshState.commits ∧
      (freshState.create_table "Testing" [⟨"Name", .str⟩]).1.rollbacks =
        freshState.rollbacks)) :=
  ⟨rfl, c6_commit_xor_rollback freshState "Testing" [⟨"Name", .str⟩] rfl⟩

theorem drop_length_append {α : Type} (l₁ l₂ : List α) :
    (l₁ ++ l₂).drop l₁.length = l₂ := by
  induction l₁ with
  | nil => rfl
  | cons a l ih => simp [ih]

/-- C5 amended: an unmapped type is rejected before any driver call, but by
an AssertionError ("Not a valid type") raised at `Column` construction, not
an `InvalidColumnSpec` result; a duplicate column name is not validated at
all — starting idle on a fresh table, `create_table` sends the CREATE
statement to the driver (two statements executed, logged in the history),
the driver rejects it, `_commit` rolls back once, the schema is unchanged,
and the call returns `True`. -/
theorem c5_assertion_and_unchecked_duplicates (n kw : String) (s : BSQL)
    (t : String) (cols : List Column) (hkw : keywordToType kw = Option.none)
    (horacle : s.oracle = []) (htx : s.transaction = [])
    (hsync : s.current = s.committed)
    (habsent : DB.getTable s.current t = Option.none)
    (hdup : ¬ (cols.map Column.name).Nodup) :
    Column.init n .boolClass = .error .assertionError ∧
    Column.init n (.keyword kw) = .error .assertionError ∧
    (s.create_table t cols).2 = .ok true ∧
    (s.create_table t cols).1.execCount = s.execCount + 2 ∧
    (s.create_table t cols).1.rollbacks = s.rollbacks + 1 ∧
    (s.create_table t cols).1.commits = s.commits ∧
    (s.create_table t cols).1.current = s.current ∧
    (s.create_table t cols).1.history =
      s.history ++ [selEntry t, failEntry (.create t cols)] := by
  obtain ⟨cm, cu, cur, tx, hist, co, ro, ec, or⟩ := s
  have hor : or = [] := horacle
  subst hor
  have htx2 : tx = [] := htx
  subst htx2
  have hsy : cu = cm := hsync
  subst hsy
  have hrun : (Stmt.create t cols).run cu = Option.none := by
    cases he : cols.isEmpty with
    | true => simp [Stmt.run, habsent, he]
    | false => simp [Stmt.run, habsent, he, hdup]
  rw [create_table_mk_absent_fail cu cu cur [] hist co ro ec t cols habsent hrun]
  have hfail : (([] : List TxEntry) ++
      [selEntry t, failEntry (.create t cols)]).any (fun c => !c.ok) = true := by
    simp [failEntry]
  rw [commit_mk_any_fail _ _ _ _ _ _ _ _ _ hfail]
  refine ⟨rfl, ?_, rfl, rfl, rfl, rfl, rfl, rfl⟩
  simp [Column.init, hkw]

/-- Witness for C5's amended statement at a concrete input: the unmapped
keyword `TEXT` and the duplicate declared schema `[Id, Id]` on a fresh
database. -/
theorem c5_witness :
    keywordToType "TEXT" = Option.none ∧
    freshState.oracle = [] ∧
    freshState.transaction = [] ∧
    freshState.current = freshState.committed ∧
    DB.getTable freshState.current "T" = Option.none ∧
    (¬ (([⟨"Id", .str⟩, ⟨"Id", .str⟩] : List Column).map Column.name).Nodup) ∧
    (Column.init "X" .boolClass = .error .assertionError ∧
      Column.init "X" (.keyword "TEXT") = .error .assertionError ∧
      (freshState.create_table "T" [⟨"Id", .str⟩, ⟨"Id", .str⟩]).2 = .ok true ∧
      (freshState.create_table "T" [⟨"Id", .str⟩, ⟨"Id", .str⟩]).1.execCount =
        freshState.execCount + 2 ∧
      (freshState.create_table "T" [⟨"Id", .str⟩, ⟨"Id", .str⟩]).1.rollbacks =
        freshState.rollbacks + 1 ∧
      (freshState.create_table "T" [⟨"Id", .str⟩, ⟨"Id", .str⟩]).1.commits =
        freshState.commits ∧
      (freshState.create_table "T" [⟨"Id", .str⟩, ⟨"Id", .str⟩]).1.current =
        freshState.current ∧
      (freshState.create_table "T" [⟨"Id", .str⟩, ⟨"Id", .str⟩]).1.history =
        freshState.history ++
          [selEntry "T", failEntry (.create "T" [⟨"Id", .str⟩, ⟨"Id", .str⟩])]) :=
  ⟨by decide, rfl, rfl, rfl, by decide, by decide,
    c5_assertion_and_unchecked_duplicates "X" "TEXT" freshState "T"
      [⟨"Id", .str⟩, ⟨"Id", .str⟩] (by decide) rfl rfl rfl (by decide) (by decide)⟩

/-- C1 amended: starting from an idle instance with a healthy driver, if a
`create_table` invocation returns normally and some statement recorded
during the call failed, then the call returned `True` — no
StatementFailed-style error is reported; the failure is only recorded in
the history — with exactly one rollback and no commit, and the observed
schema (current view) and the committed state both equal their values
before the call, so no partial schema change is observable.  (The call
also does not stop at the first failure: see the counterexample, where
both generated statements are issued although the first already failed.) -/
theorem c1_failure_rolls_back_and_returns_true (s : BSQL) (t : String)
    (cols : List Column) (horacle : s.oracle = []) (htx : s.transaction = [])
    (hsync : s.current = s.committed) (b : Bool)
    (hok : (s.create_table t cols).2 = .ok b)
    (hfailed : (((s.create_table t cols).1.history.drop s.history.length).any
      (fun e => !e.ok)) = true) :
    (s.create_table t cols).2 = .ok true ∧
    (s.create_table t cols).1.rollbacks = s.rollbacks + 1 ∧
    (s.create_table t cols).1.commits = s.commits ∧
    (s.create_table t cols).1.current = s.current ∧
    (s.create_table t cols).1.committed = s.committed ∧
    (s.create_table t cols).1.transaction = [] := by
  obtain ⟨cm, cu, cur, tx, hist, co, ro, ec, or⟩ := s
  have hor : or = [] := horacle
  subst hor
  have htx2 : tx = [] := htx
  subst htx2
  have hsy : cu = cm := hsync
  subst hsy
  cases htab : DB.getTable cu t with
  | none =>
    cases hrun : (Stmt.create t cols).run cu with
    | some pr =>
      obtain ⟨db2, cur2⟩ := pr
      rw [create_table_mk_absent_ok cu cu cur [] hist co ro ec t cols db2 cur2
        htab hrun] at hfailed
      have hokk : (([] : List TxEntry) ++
          [selEntry t, okEntry (.create t cols)]).any (fun c => !c.ok) = false := by
        simp [selEntry, okEntry]
      rw [commit_mk_all_ok _ _ _ _ _ _ _ _ _ hokk] at hfailed
      simp [drop_length_append, selEntry, okEntry] at hfailed
    | none =>
      rw [create_table_mk_absent_fail cu cu cur [] hist co ro ec t cols htab hrun]
      have hfail : (([] : List TxEntry) ++
          [selEntry t, failEntry (.create t cols)]).any (fun c => !c.ok) = true := by
        simp [failEntry]
      rw [commit_mk_any_fail _ _ _ _ _ _ _ _ _ hfail]
      exact ⟨rfl, rfl, rfl, rfl, rfl, rfl⟩
  | some tb =>
    cases hcols : cols with
    | cons c0 cs =>
      subst hcols
      have hne : (c0 :: cs : List Column) ≠ [] := fun h => List.noConfusion h
      rw [create_table_mk_existing_nonempty cu cu cur [] hist co ro ec t (c0 :: cs)
        tb htab hne] at hok
      simp at hok
    | nil =>
      subst hcols
      cases htbc : tb.cols with
      | nil =>
        rw [create_table_mk_existing_both_empty cu cu cur [] hist co ro ec t tb htab
          htbc] at hfailed
        simp [List.drop_length] at hfailed
      | cons a l =>
        have htbne : tb.cols ≠ [] := by
          rw [htbc]
          exact fun h => List.noConfusion h
        rw [create_table_mk_existing_drop cu cu cur [] hist co ro ec t tb htab htbne]
        exact ⟨rfl, rfl, rfl, rfl, rfl, rfl⟩

/-- Witness for C1's amended statement at the concrete failing scenario:
table `T` with columns `A`, `B`, declared list `[]` — the drop statements
fail and the call rolls back while returning `True`. -/
theorem c1_witness :
    stateTAB.oracle = [] ∧
    stateTAB.transaction = [] ∧
    stateTAB.current = stateTAB.committed ∧
    (stateTAB.create_table "T" []).2 = .ok true ∧
    (((stateTAB.create_table "T" []).1.history.drop stateTAB.history.length).any
      (fun e => !e.ok)) = true ∧
    ((stateTAB.create_table "T" []).2 = .ok true ∧
      (stateTAB.create_table "T" []).1.rollbacks = stateTAB.rollbacks + 1 ∧
      (stateTAB.create_table "T" []).1.commits = stateTAB.commits ∧
      (stateTAB.create_table "T" []).1.current = stateTAB.current ∧
      (stateTAB.create_table "T" []).1.committed = stateTAB.committed ∧
      (stateTAB.create_table "T" []).1.transaction = []) :=
  ⟨rfl, rfl, rfl, by decide, by decide,
    c1_failure_rolls_back_and_returns_true stateTAB "T" [] rfl rfl rfl true
      (by decide) (by decide)⟩

theorem execute_transaction_len (s : BSQL) (cmd : Stmt) (exclude : Bool)
    (msg : Option String) :
    ((s.execute cmd exclude msg).1).transaction.length =
      s.transaction.length + (if exclude then 0 else 1) := by
  obtain ⟨cm, cu, cur, tx, hist, co, ro, ec, or⟩ := s
  cases or with
  | nil =>
    cases hx : cmd.run cu with
    | none => cases exclude <;> simp [BSQL.execute, hx]
    | some pr =>
      obtain ⟨db, c2⟩ := pr
      cases exclude <;> simp [BSQL.execute, hx]
  | cons b rest =>
    cases b with
    | false =>
      cases hx : cmd.run cu with
      | none => cases exclude <;> simp [BSQL.execute, hx]
      | some pr =>
        obtain ⟨db, c2⟩ := pr
        cases exclude <;> simp [BSQL.execute, hx]
    | true => cases exclude <;> simp [BSQL.execute]

theorem get_all_records_state (s : BSQL) (t : String) (kwargs : List (String × Filt)) :
    (s.get_all_records t kwargs).1 =
      (((s.execute (.selectAll t) (!kwargs.isEmpty) Option.none).1).execute
        (.pragma t) true Option.none).1 := rfl

theorem get_all_records_preserved (s : BSQL) (t : String)
    (kwargs : List (String × Filt)) :
    (s.get_all_records t kwargs).1.commits = s.commits ∧
    (s.get_all_records t kwargs).1.rollbacks = s.rollbacks ∧
    (s.get_all_records t kwargs).1.committed = s.committed ∧
    (s.get_all_records t kwargs).1.history = s.history ∧
    (s.get_all_records t kwargs).1.transaction.length =
      s.transaction.length + (if kwargs.isEmpty then 1 else 0) := by
  rw [get_all_records_state]
  have h1 := execute_preserves s (.selectAll t) (!kwargs.isEmpty) Option.none
  have h2 := execute_preserves ((s.execute (.selectAll t) (!kwargs.isEmpty) Option.none).1)
    (.pragma t) true Option.none
  have l1 := execute_transaction_len s (.selectAll t) (!kwargs.isEmpty) Option.none
  have l2 := execute_transaction_len
    ((s.execute (.selectAll t) (!kwargs.isEmpty) Option.none).1) (.pragma t) true
    Option.none
  refine ⟨?_, ?_, ?_, ?_, ?_⟩
  · rw [h2.1, h1.1]
  · rw [h2.2.1, h1.2.1]
  · rw [h2.2.2.1, h1.2.2.1]
  · rw [h2.2.2.2, h1.2.2.2]
  · rw [l2, l1]
    cases kwargs with
    | nil => simp
    | cons k ks => simp

theorem deleteLoop_preserved (t : String) (rs : List (List (String × Val)))
    (s0 : BSQL) :
    ((rs.foldl (fun acc record =>
        (acc.execute (.deleteRows t (record.map (fun kv => (kv.1, renderVal kv.2))))
          false Option.none).1) s0).commits = s0.commits) ∧
    ((rs.foldl (fun acc record =>
        (acc.execute (.deleteRows t (record.map (fun kv => (kv.1, renderVal kv.2))))
          false Option.none).1) s0).rollbacks = s0.rollbacks) ∧
    ((rs.foldl (fun acc record =>
        (acc.execute (.deleteRows t (record.map (fun kv => (kv.1, renderVal kv.2))))
          false Option.none).1) s0).committed = s0.committed) ∧
    ((rs.foldl (fun acc record =>
        (acc.execute (.deleteRows t (record.map (fun kv => (kv.1, renderVal kv.2))))
          false Option.none).1) s0).history = s0.history) ∧
    ((rs.foldl (fun acc record =>
        (acc.execute (.deleteRows t (record.map (fun kv => (kv.1, renderVal kv.2))))
          false Option.none).1) s0).transaction.length =
      s0.transaction.length + rs.length) := by
  induction rs generalizing s0 with
  | nil => simp
  | cons r rs ih =>
    rw [List.foldl_cons]
    have he := execute_preserves s0
      (.deleteRows t (r.map (fun kv => (kv.1, renderVal kv.2)))) false Option.none
    have hl := execute_transaction_len s0
      (.deleteRows t (r.map (fun kv => (kv.1, renderVal kv.2)))) false Option.none
    have hi := ih ((s0.execute
      (.deleteRows t (r.map (fun kv => (kv.1, renderVal kv.2)))) false Option.none).1)
    refine ⟨?_, ?_, ?_, ?_, ?_⟩
    · rw [hi.1, he.1]
    · rw [hi.2.1, he.2.1]
    · rw [hi.2.2.1, he.2.2.1]
    · rw [hi.2.2.2.1, he.2.2.2]
    · rw [hi.2.2.2.2, hl]
      simp
      omega

/-- C9 (confirmed): every call to `delete_all_records` whose record
selection completes returns Python `None` despite the declared `-> bool`
annotation, performs no commit and no rollback (the committed state and
the history are untouched), and leaves the issued DELETE statements
pending in the instance's transaction list — one new entry per selected
record, plus the unexcluded SELECT entry when no filters were given —
until some later operation calls `_commit`. -/
theorem c9_delete_returns_none_and_never_commits (s : BSQL) (t : String)
    (kwargs : List (String × Filt)) (recs : List (List (String × Val)))
    (hget : (s.get_all_records t kwargs).2 = .ok recs) :
    (s.delete_all_records t kwargs).2 = .ok Option.none ∧
    (s.delete_all_records t kwargs).1.commits = s.commits ∧
    (s.delete_all_records t kwargs).1.rollbacks = s.rollbacks ∧
    (s.delete_all_records t kwargs).1.committed = s.committed ∧
    (s.delete_all_records t kwargs).1.history = s.history ∧
    (s.delete_all_records t kwargs).1.transaction.length =
      s.transaction.length + (if kwargs.isEmpty then 1 else 0) + recs.length := by
  have hdel : s.delete_all_records t kwargs =
      (recs.foldl (fun acc record =>
        (acc.execute (.deleteRows t (record.map (fun kv => (kv.1, renderVal kv.2))))
          false Option.none).1) (s.get_all_records t kwargs).1,
        .ok Option.none) := by
    unfold BSQL.delete_all_records
    simp only [hget]
  rw [hdel]
  have hfold := deleteLoop_preserved t recs (s.get_all_records t kwargs).1
  have hga := get_all_records_preserved s t kwargs
  refine ⟨rfl, ?_, ?_, ?_, ?_, ?_⟩
  · rw [hfold.1, hga.1]
  · rw [hfold.2.1, hga.2.1]
  · rw [hfold.2.2.1, hga.2.2.1]
  · rw [hfold.2.2.2.1, hga.2.2.2.1]
  · rw [hfold.2.2.2.2, hga.2.2.2.2]

/-- Witness for C9 at a concrete input: the repository demo's filtered
delete on the `Testing` table selects Bob and Alice (ages above 25). -/
theorem c9_witness :
    (stateTesting.get_all_records "Testing"
        [("Age", .callableF (fun v => match v with
          | .vInt n => decide (n > 25)
          | _ => false))]).2 =
      .ok [[("Name", Val.vStr "Bob"), ("Age", Val.vInt 30)],
           [("Name", Val.vStr "Alice"), ("Age", Val.vInt 40)]] ∧
    ((stateTesting.delete_all_records "Testing"
        [("Age", .callableF (fun v => match v with
          | .vInt n => decide (n > 25)
          | _ => false))]).2 = .ok Option.none ∧
      (stateTesting.delete_all_records "Testing"
        [("Age", .callableF (fun v => match v with
          | .vInt n => decide (n > 25)
          | _ => false))]).1.commits = stateTesting.commits ∧
      (stateTesting.delete_all_records "Testing"
        [("Age", .callableF (fun v => match v with
          | .vInt n => decide (n > 25)
          | _ => false))]).1.rollbacks = stateTesting.rollbacks ∧
      (stateTesting.delete_all_records "Testing"
        [("Age", .callableF (fun v => match v with
          | .vInt n => decide (n > 25)
          | _ => false))]).1.committed = stateTesting.committed ∧
      (stateTesting.delete_all_records "Testing"
        [("Age", .callableF (fun v => match v with
          | .vInt n => decide (n > 25)
          | _ => false))]).1.history = stateTesting.history ∧
      (stateTesting.delete_all_records "Testing"
        [("Age", .callableF (fun v => match v with
          | .vInt n => decide (n > 25)
          | _ => false))]).1.transaction.length =
        stateTesting.transaction.length +
          (if ([("Age", Filt.callableF (fun v => match v with
            | .vInt n => decide (n > 25)
            | _ => false))]).isEmpty then 1 else 0) + 2) :=
  ⟨rfl, c9_delete_returns_none_and_never_commits stateTesting "Testing"
    [("Age", .callableF (fun v => match v with
      | .vInt n => decide (n > 25)
      | _ => false))]
    [[("Name", Val.vStr "Bob"), ("Age", Val.vInt 30)],
     [("Name", Val.vStr "Alice"), ("Age", Val.vInt 40)]] rfl⟩

theorem buildRecords_ok (cols : List Column) (rows : List (List Val))
    (h : ∀ row ∈ rows, cols.length ≤ row.length) :
    buildRecords cols rows = .ok (rows.map (recordOf cols)) := by
  induction rows with
  | nil => rfl
  | cons row rows ih =>
    have h1 : ¬ (row.length < cols.length) :=
      Nat.not_lt.mpr (h row (by simp))
    have h2 := ih (fun r hr => h r (by simp [hr]))
    simp only [buildRecords, buildRecord, if_neg h1, h2]
    rfl

theorem recordPasses_ok (r : List (String × Val)) (kwargs : List (String × Filt))
    (h : ∀ kf ∈ kwargs, (r.lookup kf.1).isSome = true) :
    recordPasses r kwargs = .ok (passAll r kwargs) := by
  induction kwargs with
  | nil => rfl
  | cons kf rest ih =>
    obtain ⟨v, hv⟩ := Option.isSome_iff_exists.mp (h kf (by simp))
    have h2 := ih (fun kg hg => h kg (by simp [hg]))
    cases hp : filtPass kf.2 v with
    | true => simp [recordPasses, passAll, hv, hp, h2, List.all_cons]
    | false => simp [recordPasses, passAll, hv, hp, List.all_cons]

theorem filterRecords_ok (records : List (List (String × Val)))
    (kwargs : List (String × Filt))
    (h : ∀ r ∈ records, ∀ kf ∈ kwargs, (r.lookup kf.1).isSome = true) :
    filterRecords records kwargs =
      .ok (records.filter (fun r => passAll r kwargs)) := by
  induction records with
  | nil => rfl
  | cons r rest ih =>
    have h1 := recordPasses_ok r kwargs (h r (by simp))
    have h2 := ih (fun r2 hr2 => h r2 (by simp [hr2]))
    cases hp : passAll r kwargs with
    | true =>
      simp only [filterRecords, h1, h2, hp, List.filter_cons, if_pos]
      rfl
    | false =>
      simp only [filterRecords, h1, h2, hp, List.filter_cons]
      rw [if_neg (by simp)]
      rfl

theorem lookup_recordOf_isSome (cols : List Column) (row : List Val) (k : String)
    (hlen : cols.length ≤ row.length) (hk : k ∈ cols.map Column.name) :
    ((recordOf cols row).lookup k).isSome = true := by
  induction cols generalizing row with
  | nil => simp at hk
  | cons c cols ih =>
    cases row with
    | nil => simp at hlen
    | cons v vs =>
      simp only [recordOf, List.zip_cons_cons, List.map_cons] at *
      cases hbeq : (k == c.name) with
      | true => simp [List.lookup, hbeq]
      | false =>
        have hk2 : k ∈ cols.map Column.name := by
          rcases List.mem_cons.mp hk with h1 | h1
          · exact absurd (beq_iff_eq.mpr h1) (by simp [hbeq])
          · exact h1
        have h3 := ih vs (Nat.le_of_succ_le_succ hlen) hk2
        simp only [recordOf] at h3
        simp only [List.lookup, hbeq]
        exact h3

theorem recordOf_keys_subset (cols : List Column) (row : List Val)
    (kv : String × Val) (h : kv ∈ recordOf cols row) :
    kv.1 ∈ cols.map Column.name := by
  simp only [recordOf, List.mem_map] at h
  obtain ⟨pair, hp, hkv⟩ := h
  have hc : pair.1 ∈ cols := (List.of_mem_zip hp).1
  rw [← hkv]
  exact List.mem_map_of_mem Column.name hc

theorem getTable_setTable (db : DB) (t : String) (tb2 : Table)
    (h : (DB.getTable db t).isSome = true) :
    DB.getTable (DB.setTable db t tb2) t = some tb2 := by
  induction db with
  | nil => simp [DB.getTable, List.lookup] at h
  | cons kv rest ih =>
    obtain ⟨k0, tb0⟩ := kv
    by_cases hkt : k0 = t
    · subst hkt
      have hred : DB.setTable ((k0, tb0) :: rest) k0 tb2 =
          (k0, tb2) :: DB.setTable rest k0 tb2 := by
        simp [DB.setTable]
      rw [hred]
      simp [DB.getTable, List.lookup]
    · have hne : (t == k0) = false :=
        beq_eq_false_iff_ne.mpr (fun he => hkt he.symm)
      have h2 : (DB.getTable rest t).isSome = true := by
        simp only [DB.getTable, List.lookup, hne] at h
        exact h
      have hred : DB.setTable ((k0, tb0) :: rest) t tb2 =
          (k0, tb0) :: DB.setTable rest t tb2 := by
        simp [DB.setTable, if_neg hkt]
      rw [hred]
      have h4 := ih h2
      simp only [DB.getTable, List.lookup, hne] at h4 ⊢
      exact h4

theorem rowMatchesConds_cons_skip (c : Column) (v : Val) (cols : List Column)
    (row : List Val) (conds : List (String × String))
    (h : ∀ kv ∈ conds, (c.name == kv.1) = false) :
    rowMatchesConds (c :: cols) (v :: row) conds =
      rowMatchesConds cols row conds := by
  induction conds with
  | nil => rfl
  | cons kv rest ihc =>
    have ih2 := ihc (fun kw hw => h kw (by simp [hw]))
    have hhead : ¬ ((fun cr => cr.1.name == kv.1) ((c, v) : Column × Val) = true) := by
      simp [h kv (by simp)]
    unfold rowMatchesConds at ih2 ⊢
    simp only [List.zip_cons_cons, List.all_cons] at ih2 ⊢
    have hstep : List.find? (fun cr => cr.1.name == kv.1) ((c, v) :: cols.zip row) =
        List.find? (fun cr => cr.1.name == kv.1) (cols.zip row) :=
      List.find?_cons_of_neg _ hhead
    rw [hstep, ih2]

theorem rowMatchesConds_cond_cons (cols : List Column) (row : List Val)
    (kv : String × String) (conds : List (String × String)) :
    rowMatchesConds cols row (kv :: conds) =
      ((match List.find? (fun cr => cr.1.name == kv.1) (cols.zip row) with
        | some cr => condMatches cr.2 kv.2
        | Option.none => false) && rowMatchesConds cols row conds) := by
  unfold rowMatchesConds
  simp [List.all_cons]

/-- A generated DELETE whose conditions come from one of the table's own
records matches a row exactly when the row equals the record's underlying
row, provided column names are unique, rows have exactly one cell per
column, the row's cells are non-null, and the rendered cell texts
distinguish the cells (automatic for well-typed tables, since decimal
rendering of integers and identity on strings are injective). -/
theorem rowMatches_record_iff (cols : List Column) (row drow : List Val)
    (hnodup : (cols.map Column.name).Nodup)
    (hr : row.length = cols.length) (hd : drow.length = cols.length)
    (hnn : ∀ v ∈ row, v ≠ Val.vNull)
    (hinj : ∀ v ∈ row, ∀ w ∈ drow, renderVal v = renderVal w → v = w) :
    (rowMatchesConds cols row ((recordOf cols drow).map
      (fun kv => (kv.1, renderVal kv.2))) = true) ↔ row = drow := by
  induction cols generalizing row drow with
  | nil =>
    have h1 : row = [] := List.length_eq_zero.mp hr
    have h2 : drow = [] := List.length_eq_zero.mp hd
    subst h1
    subst h2
    simp [rowMatchesConds, recordOf]
  | cons c cols ih =>
    cases row with
    | nil =>
      exfalso
      simp only [List.length_nil, List.length_cons] at hr
      omega
    | cons v vs =>
      cases drow with
      | nil =>
        exfalso
        simp only [List.length_nil, List.length_cons] at hd
        omega
      | cons w ws =>
        have hrec : recordOf (c :: cols) (w :: ws) = (c.name, w) :: recordOf cols ws := by
          simp [recordOf]
        rw [hrec, List.map_cons]
        rw [List.map_cons] at hnodup
        obtain ⟨hni, hnd⟩ := List.nodup_cons.mp hnodup
        have htailkeys : ∀ kv ∈ (recordOf cols ws).map
            (fun kv => (kv.1, renderVal kv.2)), (c.name == kv.1) = false := by
          intro kv hkv
          simp only [List.mem_map] at hkv
          obtain ⟨kw, hkw, rfl⟩ := hkv
          have hmem : kw.1 ∈ cols.map Column.name := recordOf_keys_subset cols ws kw hkw
          exact beq_eq_false_iff_ne.mpr (fun he => hni (he ▸ hmem))
        rw [rowMatchesConds_cond_cons, rowMatchesConds_cons_skip c v cols vs _ htailkeys]
        have hheadfind : List.find? (fun cr => cr.1.name == c.name)
            ((c, v) :: cols.zip vs) = some (c, v) :=
          List.find?_cons_of_pos _ (by simp)
        simp only [List.zip_cons_cons]
        rw [hheadfind]
        rw [Bool.and_eq_true]
        have hih := ih vs ws hnd (by simpa using hr) (by simpa using hd)
          (fun x hx => hnn x (by simp [hx]))
          (fun x hx y hy => hinj x (by simp [hx]) y (by simp [hy]))
        rw [hih]
        have hv : v ≠ Val.vNull := hnn v (by simp)
        have hcm : (condMatches v (renderVal w) = true) ↔ v = w := by
          constructor
          · intro hc
            have hrv : renderVal v = renderVal w := by
              cases v with
              | vNull => exact absurd rfl hv
              | vInt n => simpa [condMatches] using hc
              | vStr s2 => simpa [condMatches] using hc
            exact hinj v (by simp) w (by simp) hrv
          · intro he
            subst he
            cases v with
            | vNull => exact absurd rfl hv
            | vInt n => simp [condMatches]
            | vStr s2 => simp [condMatches]
        rw [hcm]
        simp [List.cons.injEq]

theorem get_all_records_eq (cm cu : DB) (cur : CursorData) (tx hist : List TxEntry)
    (co ro ec : Nat) (t : String) (kwargs : List (String × Filt)) (tb : Table)
    (htable : DB.getTable cu t = some tb)
    (hlen : ∀ row ∈ tb.rows, tb.cols.length ≤ row.length)
    (hkeys : ∀ kf ∈ kwargs, kf.1 ∈ tb.cols.map Column.name) :
    (BSQL.mk cm cu cur tx hist co ro ec []).get_all_records t kwargs =
      (BSQL.mk cm cu
        (.tableInfo (tb.cols.map (fun c => (c.name, sql_types c.type))))
        (if kwargs.isEmpty then tx ++ [okEntry (.selectAll t)] else tx)
        hist co ro (ec + 1 + 1) [],
        .ok (specSelect tb.cols tb.rows kwargs)) := by
  have hrun : (Stmt.selectAll t).run cu = some (cu, .resultRows tb.rows) := by
    simp [Stmt.run, htable]
  have hsel : (BSQL.mk cm cu cur tx hist co ro ec []).execute (.selectAll t)
      (!kwargs.isEmpty) Option.none =
      (BSQL.mk cm cu (.resultRows tb.rows)
        (if kwargs.isEmpty then tx ++ [okEntry (.selectAll t)] else tx)
        hist co ro (ec + 1) [], true) := by
    cases hkw : kwargs.isEmpty <;> simp [BSQL.execute, hrun, okEntry, hkw]
  unfold BSQL.get_all_records
  rw [hsel]
  dsimp only
  rw [get_columns_mk cm cu _ _ hist co ro (ec + 1) t tb htable]
  dsimp only
  rw [buildRecords_ok tb.cols tb.rows hlen]
  cases hkw : kwargs with
  | nil => simp [specSelect, passAll, List.filter_true]
  | cons k0 ks =>
    have hfil := filterRecords_ok (tb.rows.map (recordOf tb.cols)) (k0 :: ks)
      (by
        intro r hr kf hkf
        simp only [List.mem_map] at hr
        obtain ⟨row, hrow, rfl⟩ := hr
        exact lookup_recordOf_isSome tb.cols row kf.1 (hlen row hrow)
          (hkeys kf (hkw ▸ hkf)))
    simp [hfil, specSelect]

theorem deleteLoop_table (t : String) (ds : List (List (String × Val)))
    (cm cu : DB) (cur : CursorData) (tx hist : List TxEntry) (co ro ec : Nat)
    (cols : List Column) (rows : List (List Val))
    (hcur : DB.getTable cu t = some ⟨cols, rows⟩)
    (hkeys : ∀ d ∈ ds, ∀ kv ∈ d, kv.1 ∈ cols.map Column.name) :
    DB.getTable ((ds.foldl (fun acc record =>
      (acc.execute (.deleteRows t (record.map (fun kv => (kv.1, renderVal kv.2))))
        false Option.none).1) (BSQL.mk cm cu cur tx hist co ro ec [])).current) t =
      some ⟨cols, rows.filter (fun row => ds.all (fun d =>
        !rowMatchesConds cols row (d.map (fun kv => (kv.1, renderVal kv.2)))))⟩ := by
  induction ds generalizing cu cur tx ec rows with
  | nil => simp [hcur, List.filter_true]
  | cons d ds ih =>
    have hconds : ∀ kv ∈ d.map (fun kv => (kv.1, renderVal kv.2)),
        cols.any (fun c => c.name == kv.1) = true := by
      intro kv hkv
      simp only [List.mem_map] at hkv
      obtain ⟨kw, hkw, rfl⟩ := hkv
      have h5 := hkeys d (by simp) kw hkw
      simp only [List.mem_map] at h5
      obtain ⟨c1, hc1, he⟩ := h5
      exact List.any_eq_true.mpr ⟨c1, hc1, beq_iff_eq.mpr he⟩
    have hall : (d.map (fun kv => (kv.1, renderVal kv.2))).all
        (fun kv => cols.any (fun c => c.name == kv.1)) = true :=
      List.all_eq_true.mpr hconds
    have hrun : (Stmt.deleteRows t (d.map (fun kv => (kv.1, renderVal kv.2)))).run cu =
        some (DB.setTable cu t ⟨cols, rows.filter (fun row =>
          !rowMatchesConds cols row (d.map (fun kv => (kv.1, renderVal kv.2))))⟩,
          .empty) := by
      simp [Stmt.run, hcur, hall]
    have hexec : (BSQL.mk cm cu cur tx hist co ro ec []).execute
        (.deleteRows t (d.map (fun kv => (kv.1, renderVal kv.2)))) false Option.none =
        (BSQL.mk cm
          (DB.setTable cu t ⟨cols, rows.filter (fun row =>
            !rowMatchesConds cols row (d.map (fun kv => (kv.1, renderVal kv.2))))⟩)
          CursorData.empty
          (tx ++ [okEntry (.deleteRows t (d.map (fun kv => (kv.1, renderVal kv.2))))])
          hist co ro (ec + 1) [], true) := by
      simp [BSQL.execute, hrun, okEntry]
    have hcur1 : DB.getTable (DB.setTable cu t ⟨cols, rows.filter (fun row =>
        !rowMatchesConds cols row (d.map (fun kv => (kv.1, renderVal kv.2))))⟩) t =
        some ⟨cols, rows.filter (fun row =>
          !rowMatchesConds cols row (d.map (fun kv => (kv.1, renderVal kv.2))))⟩ :=
      getTable_setTable cu t _ (by simp [hcur])
    have hstep := ih
      (DB.setTable cu t ⟨cols, rows.filter (fun row =>
        !rowMatchesConds cols row (d.map (fun kv => (kv.1, renderVal kv.2))))⟩)
      CursorData.empty
      (tx ++ [okEntry (.deleteRows t (d.map (fun kv => (kv.1, renderVal kv.2))))])
      (ec + 1)
      (rows.filter (fun row =>
        !rowMatchesConds cols row (d.map (fun kv => (kv.1, renderVal kv.2)))))
      hcur1 (fun d2 hd2 => hkeys d2 (by simp [hd2]))
    have hfilters : rows.filter (fun row => (d :: ds).all (fun d2 =>
        !rowMatchesConds cols row (d2.map (fun kv => (kv.1, renderVal kv.2))))) =
        (rows.filter (fun row =>
          !rowMatchesConds cols row (d.map (fun kv => (kv.1, renderVal kv.2))))).filter
          (fun row => ds.all (fun d2 =>
            !rowMatchesConds cols row (d2.map (fun kv => (kv.1, renderVal kv.2))))) := by
      rw [List.filter_filter]
      apply List.filter_congr
      intro row hrow
      simp [List.all_cons, Bool.and_comm]
    rw [List.foldl_cons, hexec, hfilters]
    exact hstep

theorem selected_filter_eq (cols : List Column) (rows : List (List Val))
    (kwargs : List (String × Filt))
    (hnodup : (cols.map Column.name).Nodup)
    (hlen : ∀ row ∈ rows, row.length = cols.length)
    (hnn : ∀ row ∈ rows, ∀ v ∈ row, v ≠ Val.vNull)
    (hinj : ∀ r1 ∈ rows, ∀ r2 ∈ rows, ∀ v ∈ r1, ∀ w ∈ r2,
      renderVal v = renderVal w → v = w) :
    rows.filter (fun row => (specSelect cols rows kwargs).all (fun d =>
      !rowMatchesConds cols row (d.map (fun kv => (kv.1, renderVal kv.2))))) =
    rows.filter (fun row => !(passAll (recordOf cols row) kwargs)) := by
  apply List.filter_congr
  intro row hrow
  cases hp : passAll (recordOf cols row) kwargs with
  | true =>
    have hmem : recordOf cols row ∈ specSelect cols rows kwargs := by
      simp only [specSelect, List.mem_filter]
      exact ⟨List.mem_map_of_mem _ hrow, hp⟩
    have hmatch : rowMatchesConds cols row ((recordOf cols row).map
        (fun kv => (kv.1, renderVal kv.2))) = true :=
      (rowMatches_record_iff cols row row hnodup (hlen row hrow) (hlen row hrow)
        (hnn row hrow)
        (fun v hv w hw => hinj row hrow row hrow v hv w hw)).mpr rfl
    simp only [Bool.not_true]
    rw [List.all_eq_false.mpr ⟨recordOf cols row, hmem, by simp [hmatch]⟩]
  | false =>
    simp only [Bool.not_false]
    rw [List.all_eq_true]
    intro d hd
    simp only [specSelect, List.mem_filter, List.mem_map] at hd
    obtain ⟨⟨drow, hdrow, rfl⟩, hpass⟩ := hd
    cases hm : rowMatchesConds cols row ((recordOf cols drow).map
        (fun kv => (kv.1, renderVal kv.2))) with
    | false => simp
    | true =>
      exfalso
      have heq : row = drow :=
        (rowMatches_record_iff cols row drow hnodup (hlen row hrow) (hlen drow hdrow)
          (hnn row hrow)
          (fun v hv w hw => hinj row hrow drow hdrow v hv w hw)).mp hm
      subst heq
      rw [hpass] at hp
      exact Bool.true_eq_false.mp hp

/-- C7 amended: with a healthy driver on a well-formed table (unique column
names, one cell per column, no NULL cells, rendered cell texts
distinguishing cells — automatic for well-typed tables) and filters naming
existing columns, `get_all_records` returns exactly the records whose every
filtered column satisfies its filter (callable filters applied, plain
values compared for equality), with no filters it returns every record, and
`delete_all_records` removes from the table exactly the selected records.
Records containing NULL break the deletion half: see the counterexample. -/
theorem c7_filter_and_delete_semantics (s : BSQL) (t : String)
    (kwargs : List (String × Filt)) (tb : Table)
    (horacle : s.oracle = [])
    (htable : DB.getTable s.current t = some tb)
    (hnodup : (tb.cols.map Column.name).Nodup)
    (hlen : ∀ row ∈ tb.rows, row.length = tb.cols.length)
    (hkeys : ∀ kf ∈ kwargs, kf.1 ∈ tb.cols.map Column.name)
    (hnn : ∀ row ∈ tb.rows, ∀ v ∈ row, v ≠ Val.vNull)
    (hinj : ∀ r1 ∈ tb.rows, ∀ r2 ∈ tb.rows, ∀ v ∈ r1, ∀ w ∈ r2,
      renderVal v = renderVal w → v = w) :
    (s.get_all_records t kwargs).2 = .ok (specSelect tb.cols tb.rows kwargs) ∧
    (∀ r, r ∈ specSelect tb.cols tb.rows kwargs ↔
      (r ∈ tb.rows.map (recordOf tb.cols) ∧
        ∀ kf ∈ kwargs, ∃ v, r.lookup kf.1 = some v ∧ filtPass kf.2 v = true)) ∧
    specSelect tb.cols tb.rows [] = tb.rows.map (recordOf tb.cols) ∧
    DB.getTable ((s.delete_all_records t kwargs).1.current) t =
      some ⟨tb.cols, tb.rows.filter (fun row =>
        !(passAll (recordOf tb.cols row) kwargs))⟩ := by
  obtain ⟨cm, cu, cur, tx, hist, co, ro, ec, or⟩ := s
  have hor : or = [] := horacle
  subst hor
  have hlen2 : ∀ row ∈ tb.rows, tb.cols.length ≤ row.length :=
    fun row hr => le_of_eq (hlen row hr).symm
  have hga := get_all_records_eq cm cu cur tx hist co ro ec t kwargs tb htable
    hlen2 hkeys
  refine ⟨?_, ?_, ?_, ?_⟩
  · rw [hga]
  · intro r
    simp only [specSelect, List.mem_filter, passAll, List.all_eq_true]
    refine and_congr Iff.rfl (forall_congr' fun kf => forall_congr' fun hkf => ?_)
    cases hlk : r.lookup kf.1 with
    | none => simp [hlk]
    | some v => simp [hlk]
  · simp [specSelect, passAll, List.filter_true]
  · have hkeys2 : ∀ d ∈ specSelect tb.cols tb.rows kwargs, ∀ kv ∈ d,
        kv.1 ∈ tb.cols.map Column.name := by
      intro d hd kv hkv
      simp only [specSelect, List.mem_filter, List.mem_map] at hd
      obtain ⟨⟨drow, hdrow, rfl⟩, hp⟩ := hd
      exact recordOf_keys_subset tb.cols drow kv hkv
    have hdelete := deleteLoop_table t (specSelect tb.cols tb.rows kwargs) cm cu
      (.tableInfo (tb.cols.map (fun c => (c.name, sql_types c.type))))
      (if kwargs.isEmpty then tx ++ [okEntry (.selectAll t)] else tx)
      hist co ro (ec + 1 + 1) tb.cols tb.rows htable hkeys2
    unfold BSQL.delete_all_records
    rw [hga]
    dsimp only
    rw [hdelete, selected_filter_eq tb.cols tb.rows kwargs hnodup hlen hnn hinj]

/-- Witness for C7's amended statement at the repository demo's table and
filter: selecting and deleting the records with age above 25. -/
theorem c7_witness :
    stateTesting.oracle = [] ∧
    DB.getTable stateTesting.current "Testing" =
      some ⟨[⟨"Name", .str⟩, ⟨"Age", .int⟩],
        [[Val.vStr "John", Val.vInt 20],
         [Val.vStr "Bob", Val.vInt 30],
         [Val.vStr "Alice", Val.vInt 40]]⟩ ∧
    ((stateTesting.get_all_records "Testing"
        [("Age", .callableF (fun v => match v with
          | .vInt n => decide (n > 25)
          | _ => false))]).2 =
      .ok (specSelect [⟨"Name", .str⟩, ⟨"Age", .int⟩]
        [[Val.vStr "John", Val.vInt 20],
         [Val.vStr "Bob", Val.vInt 30],
         [Val.vStr "Alice", Val.vInt 40]]
        [("Age", .callableF (fun v => match v with
          | .vInt n => decide (n > 25)
          | _ => false))]) ∧
      DB.getTable ((stateTesting.delete_all_records "Testing"
          [("Age", .callableF (fun v => match v with
            | .vInt n => decide (n > 25)
            | _ => false))]).1.current) "Testing" =
        some ⟨[⟨"Name", .str⟩, ⟨"Age", .int⟩],
          ([[Val.vStr "John", Val.vInt 20],
            [Val.vStr "Bob", Val.vInt 30],
            [Val.vStr "Alice", Val.vInt 40]].filter (fun row =>
            !(passAll (recordOf [⟨"Name", .str⟩, ⟨"Age", .int⟩] row)
              [("Age", .callableF (fun v => match v with
                | .vInt n => decide (n > 25)
                | _ => false))])))⟩) :=
  ⟨rfl, by decide,
    (c7_filter_and_delete_semantics stateTesting "Testing"
      [("Age", .callableF (fun v => match v with
        | .vInt n => decide (n > 25)
        | _ => false))]
      ⟨[⟨"Name", .str⟩, ⟨"Age", .int⟩],
        [[Val.vStr "John", Val.vInt 20],
         [Val.vStr "Bob", Val.vInt 30],
         [Val.vStr "Alice", Val.vInt 40]]⟩
      rfl (by decide) (by decide) (by decide) (by decide) (by decide)
      (by decide)).imp id (fun h => h.2.2)⟩

/-- C10 (confirmed): the boolean special case of `Column.__init__` applies
to the boolean values only — `Column(name, True)` and `Column(name, False)`
construct an `int`-typed column, while passing the `bool` class itself is
not coerced and fails the "Not a valid type" assertion. -/
theorem c10_bool_values_coerce_bool_class_fails (name : String) (b : Bool) :
    Column.init name (.boolVal b) = .ok ⟨name, .int⟩ ∧
    Column.init name .boolClass = .error .assertionError := by
  exact ⟨rfl, rfl⟩

end BetterSql
